import Mathlib

/-!
Verification of the UWB scanner monitor's line splitter and record
formatter (scripts/monitor.py).  Strings are modelled as lists of
characters; Python's json.loads is modelled by a fuel-bounded
recursive-descent parser over the same grammar; JSON numbers are
modelled as exact rationals (ints and floats kept apart, as json.loads
keeps them apart); code that can raise returns Except.
-/

/-- A Python string, modelled as its list of characters. -/
abbrev Str := List Char

/-- The whitespace characters stripped by Python's str.strip(): the
characters on which str.isspace() is true (ASCII whitespace, the file
and record separators, NEL, NBSP, and the Unicode space characters
U+1680, U+2000-U+200A, the line and paragraph separators, U+202F,
U+205F and U+3000). -/
def pyWS (c : Char) : Bool :=
  c = ' ' || c = '\t' || c = '\n' || c = '\r' ||
  c = Char.ofNat 11 || c = Char.ofNat 12 ||
  c = Char.ofNat 28 || c = Char.ofNat 29 || c = Char.ofNat 30 || c = Char.ofNat 31 ||
  c = Char.ofNat 133 || c = Char.ofNat 160 ||
  c = Char.ofNat 0x1680 ||
  (0x2000 ≤ c.toNat ∧ c.toNat ≤ 0x200A) ||
  c = Char.ofNat 0x2028 || c = Char.ofNat 0x2029 ||
  c = Char.ofNat 0x202F || c = Char.ofNat 0x205F || c = Char.ofNat 0x3000

/-- Python str.lstrip(). -/
def pyLStrip (s : Str) : Str := s.dropWhile pyWS

/-- Python str.rstrip(). -/
def pyRStrip (s : Str) : Str := (s.reverse.dropWhile pyWS).reverse

/-- Python str.strip(). -/
def pyStrip (s : Str) : Str := pyRStrip (pyLStrip s)

/-- Python str.find for a single character: index of the first occurrence,
none when absent (Python returns -1). -/
def pyFind (c : Char) : Str → Option Nat
  | [] => none
  | a :: t => if a = c then some 0 else (pyFind c t).map (· + 1)

/-- Python str.rfind for a single character: index of the last occurrence,
none when absent. -/
def pyRFind (c : Char) (s : Str) : Option Nat :=
  (pyFind c s.reverse).map (fun k => s.length - 1 - k)

/-- The three segments the main loop cuts a stripped line into
(monitor.py lines 94-109): the text before the first opening brace, the
candidate JSON substring, and the text after the last closing brace.
pre and suf are the raw (untrimmed) segments; the loop trims them with
strip() just before printing them. -/
structure SplitResult where
  pre : Str
  candidate : Option Str
  suf : Str

/-- The brace-heuristic splitter inlined in main (monitor.py lines
94-109): take the first opening brace, cut the text before it; then the
last closing brace of the remainder, and cut the text after it when the
brace is not the final character. -/
def splitLine (s : Str) : SplitResult :=
  match pyFind '{' s with
  | none => ⟨[], none, []⟩
  | some i =>
    match pyRFind '}' (s.drop i) with
    | some j =>
      if j + 1 < (s.drop i).length then
        ⟨s.take i, some ((s.drop i).take (j + 1)), (s.drop i).drop (j + 1)⟩
      else
        ⟨s.take i, some (s.drop i), []⟩
    | none => ⟨s.take i, some (s.drop i), []⟩

/-- A decoded JSON value as produced by Python's json.loads: null/None,
booleans, ints and floats kept apart (floats modelled as exact
rationals), NaN and the two infinities (accepted by json.loads by
default), strings, lists and dicts (a dict is kept as its key/value
list; duplicate keys are resolved last-wins at lookup time, like dict
construction does). -/
inductive JsonValue where
  | null : JsonValue
  | bool : Bool → JsonValue
  | int : ℤ → JsonValue
  | float : ℚ → JsonValue
  | nan : JsonValue
  | inf : Bool → JsonValue
  | str : Str → JsonValue
  | arr : List JsonValue → JsonValue
  | obj : List (Str × JsonValue) → JsonValue

/-- JSON whitespace (the only characters json skips between tokens). -/
def jsonWS (c : Char) : Bool := c = ' ' || c = '\t' || c = '\n' || c = '\r'

/-- Skip JSON whitespace. -/
def skipWs (s : Str) : Str := s.dropWhile jsonWS

/-- Value of one hex digit, none for a non-hex character. -/
def hexVal : Char → Option Nat
  | c =>
    if '0' ≤ c ∧ c ≤ '9' then some (c.toNat - 48)
    else if 'a' ≤ c ∧ c ≤ 'f' then some (c.toNat - 87)
    else if 'A' ≤ c ∧ c ≤ 'F' then some (c.toNat - 55)
    else none

/-- Body of a JSON string literal, after the opening quote: returns the
decoded characters and the input remaining after the closing quote.
Unescaped control characters are rejected (json strict mode).  A \u
escape holding a high surrogate immediately followed by a \u escape
holding a low surrogate combines into the astral-plane character, as
Python's json decoder combines it; a lone surrogate, which a Lean
character cannot hold, falls back through Char.ofNat. -/
def parseStringAux : Nat → Str → Option (Str × Str)
  | 0, _ => none
  | _ + 1, [] => none
  | fuel + 1, c :: rest =>
    if c = '"' then some ([], rest)
    else if c = '\\' then
      match rest with
      | [] => none
      | e :: rest2 =>
        if e = '"' then (parseStringAux fuel rest2).map (fun p => ('"' :: p.1, p.2))
        else if e = '\\' then (parseStringAux fuel rest2).map (fun p => ('\\' :: p.1, p.2))
        else if e = '/' then (parseStringAux fuel rest2).map (fun p => ('/' :: p.1, p.2))
        else if e = 'b' then (parseStringAux fuel rest2).map (fun p => (Char.ofNat 8 :: p.1, p.2))
        else if e = 'f' then (parseStringAux fuel rest2).map (fun p => (Char.ofNat 12 :: p.1, p.2))
        else if e = 'n' then (parseStringAux fuel rest2).map (fun p => ('\n' :: p.1, p.2))
        else if e = 'r' then (parseStringAux fuel rest2).map (fun p => ('\r' :: p.1, p.2))
        else if e = 't' then (parseStringAux fuel rest2).map (fun p => ('\t' :: p.1, p.2))
        else if e = 'u' then
          match rest2 with
          | h1 :: h2 :: h3 :: h4 :: rest3 =>
            match hexVal h1, hexVal h2, hexVal h3, hexVal h4 with
            | some a, some b, some c3, some d =>
              let u1 := ((a * 16 + b) * 16 + c3) * 16 + d
              if 0xD800 ≤ u1 ∧ u1 ≤ 0xDBFF then
                match rest3 with
                | '\\' :: 'u' :: h5 :: h6 :: h7 :: h8 :: rest4 =>
                  match hexVal h5, hexVal h6, hexVal h7, hexVal h8 with
                  | some a2, some b2, some c4, some d2 =>
                    let u2 := ((a2 * 16 + b2) * 16 + c4) * 16 + d2
                    if 0xDC00 ≤ u2 ∧ u2 ≤ 0xDFFF then
                      (parseStringAux fuel rest4).map
                        (fun p =>
                          (Char.ofNat (0x10000 + (u1 - 0xD800) * 0x400 + (u2 - 0xDC00)) :: p.1,
                            p.2))
                    else (parseStringAux fuel rest3).map (fun p => (Char.ofNat u1 :: p.1, p.2))
                  | _, _, _, _ =>
                    (parseStringAux fuel rest3).map (fun p => (Char.ofNat u1 :: p.1, p.2))
                | _ => (parseStringAux fuel rest3).map (fun p => (Char.ofNat u1 :: p.1, p.2))
              else (parseStringAux fuel rest3).map (fun p => (Char.ofNat u1 :: p.1, p.2))
            | _, _, _, _ => none
          | _ => none
        else none
    else if c.toNat < 32 then none
    else (parseStringAux fuel rest).map (fun p => (c :: p.1, p.2))

/-- Digits of a natural number, most significant first. -/
def natDigits (n : Nat) : Str := Nat.toDigits 10 n

/-- Decimal rendering of an integer. -/
def intStr (n : ℤ) : Str := (if n < 0 then ['-'] else []) ++ natDigits n.natAbs

/-- Numeric value of a digit string. -/
def digitsToNat (ds : Str) : Nat := ds.foldl (fun a c => a * 10 + (c.toNat - 48)) 0

/-- A JSON number, following json's NUMBER_RE: optional minus, an
integer part without leading zeros, optional fraction, optional
exponent.  When fraction and exponent are both absent the result is an
int, otherwise a float (as json.loads converts). A '.' or 'e' not
followed by digits is left unconsumed, as the regex leaves it. -/
def parseNumber (s : Str) : Option (JsonValue × Str) :=
  let neg : Bool := match s with | '-' :: _ => true | _ => false
  let s1 := if neg then s.drop 1 else s
  let ip := s1.takeWhile Char.isDigit
  let s2 := s1.dropWhile Char.isDigit
  if ip = [] then none
  else if ip.length > 1 ∧ ip.headI = '0' then none
  else
    let fr := match s2 with
      | '.' :: t => t.takeWhile Char.isDigit
      | _ => []
    let s3 := if fr = [] then s2 else (s2.drop 1).dropWhile Char.isDigit
    let expPart : Option (Bool × Str × Str) := match s3 with
      | e :: t =>
        if e = 'e' ∨ e = 'E' then
          let esign : Bool := match t with | '-' :: _ => true | _ => false
          let t2 := match t with | '+' :: u => u | '-' :: u => u | _ => t
          let ed := t2.takeWhile Char.isDigit
          if ed = [] then none else some (esign, ed, t2.dropWhile Char.isDigit)
        else none
      | [] => none
    let s4 := match expPart with | some p => p.2.2 | none => s3
    if fr = [] ∧ expPart = none then
      some (.int (if neg then -(digitsToNat ip : ℤ) else (digitsToNat ip : ℤ)), s4)
    else
      let mag : ℚ := (digitsToNat ip : ℚ) + (digitsToNat fr : ℚ) / (10 : ℚ) ^ fr.length
      let ex : ℤ := match expPart with
        | some p => if p.1 then -(digitsToNat p.2.1 : ℤ) else (digitsToNat p.2.1 : ℤ)
        | none => 0
      some (.float ((if neg then -mag else mag) * (10 : ℚ) ^ ex), s4)

/-- Check for a literal keyword tail. -/
def expectLit (lit : Str) (v : JsonValue) (s : Str) : Option (JsonValue × Str) :=
  if lit.isPrefixOf s then some (v, s.drop lit.length) else none

mutual

/-- One JSON value starting at the first character (callers skip
whitespace); returns the value and the remaining input. -/
def parseValue : Nat → Str → Option (JsonValue × Str)
  | 0, _ => none
  | fuel + 1, s =>
    match s with
    | [] => none
    | c :: rest =>
      if c = '"' then (parseStringAux (rest.length + 1) rest).map (fun p => (.str p.1, p.2))
      else if c = '{' then parseObjBody fuel rest
      else if c = '[' then parseArrBody fuel rest
      else if c = 't' then expectLit ("rue".toList) (.bool true) rest
      else if c = 'f' then expectLit ("alse".toList) (.bool false) rest
      else if c = 'n' then expectLit ("ull".toList) .null rest
      else if c = 'N' then expectLit ("aN".toList) .nan rest
      else if c = 'I' then expectLit ("nfinity".toList) (.inf false) rest
      else if c = '-' then
        if ("Infinity".toList).isPrefixOf rest then some (.inf true, rest.drop 8)
        else parseNumber s
      else if c.isDigit then parseNumber s
      else none

/-- Object members, after the opening brace. -/
def parseObjBody : Nat → Str → Option (JsonValue × Str)
  | 0, _ => none
  | fuel + 1, s =>
    match skipWs s with
    | '}' :: r => some (.obj [], r)
    | s1 => parseMembers fuel s1 []

/-- Key/value pairs of an object; expects a quoted key first. -/
def parseMembers : Nat → Str → List (Str × JsonValue) → Option (JsonValue × Str)
  | 0, _, _ => none
  | fuel + 1, s, acc =>
    match s with
    | '"' :: r =>
      match parseStringAux (r.length + 1) r with
      | none => none
      | some (k, r2) =>
        match skipWs r2 with
        | ':' :: r3 =>
          match parseValue fuel (skipWs r3) with
          | none => none
          | some (v, r4) =>
            match skipWs r4 with
            | '}' :: r5 => some (.obj (acc ++ [(k, v)]), r5)
            | ',' :: r5 => parseMembers fuel (skipWs r5) (acc ++ [(k, v)])
            | _ => none
        | _ => none
    | _ => none

/-- Array elements, after the opening bracket. -/
def parseArrBody : Nat → Str → Option (JsonValue × Str)
  | 0, _ => none
  | fuel + 1, s =>
    match skipWs s with
    | ']' :: r => some (.arr [], r)
    | s1 => parseElems fuel s1 []

/-- Elements of an array; expects a value first. -/
def parseElems : Nat → Str → List JsonValue → Option (JsonValue × Str)
  | 0, _, _ => none
  | fuel + 1, s, acc =>
    match parseValue fuel s with
    | none => none
    | some (v, r) =>
      match skipWs r with
      | ']' :: r2 => some (.arr (acc ++ [v]), r2)
      | ',' :: r2 => parseElems fuel (skipWs r2) (acc ++ [v])
      | _ => none

end

/-- Python json.loads: skip leading whitespace, parse one value, and
require that only whitespace remains; any failure is a JSONDecodeError,
modelled as none.  The fuel is ample for the input length. -/
def jsonLoads (s : Str) : Option JsonValue :=
  match parseValue (3 * s.length + 8) (skipWs s) with
  | some (v, r) => if skipWs r = [] then some v else none
  | none => none

/-- Python truthiness of a decoded JSON value (main's `if info:`). -/
def truthy : JsonValue → Bool
  | .null => false
  | .bool b => b
  | .int n => n ≠ 0
  | .float q => q ≠ 0
  | .nan => true
  | .inf _ => true
  | .str s => !s.isEmpty
  | .arr xs => !xs.isEmpty
  | .obj kvs => !kvs.isEmpty

/-- dict.get(key): the value of the last binding of the key (later
duplicate keys overwrite earlier ones when the dict is built), none when
the key is absent. -/
def pyGet (kvs : List (Str × JsonValue)) (k : Str) : Option JsonValue :=
  match kvs with
  | [] => none
  | kv :: rest =>
    match pyGet rest k with
    | some v => some v
    | none => if kv.1 = k then some kv.2 else none

/-- dict.get(key, default). -/
def pyGetD (kvs : List (Str × JsonValue)) (k : Str) (d : JsonValue) : JsonValue :=
  (pyGet kvs k).getD d

/-- Python's `x == 'lit'` for a value that may be any decoded JSON value
(or None, from get on a missing key): true exactly for the equal string. -/
def isStrVal (v : Option JsonValue) (t : Str) : Bool :=
  match v with
  | some (.str s) => s = t
  | _ => false

/-- Python format(x, '.2f') on a finite value modelled as the exact
rational x: sign, then the magnitude times 100 rounded to the nearest
integer with ties to even (the rounding of Python's fixed-point
formatting), written with exactly two fraction digits.  The arithmetic
is done on the numerator and denominator directly: the magnitude times
100 is (100 * natAbs num) / den, its floor is the integer quotient, and
the remainder decides the rounding. -/
def formatFixed2Q (q : ℚ) : Str :=
  let m : ℤ := 100 * (q.num.natAbs : ℤ)
  let fl : ℤ := m / (q.den : ℤ)
  let rnum : ℤ := m - fl * (q.den : ℤ)
  let n : ℤ :=
    if 2 * rnum > (q.den : ℤ) then fl + 1
    else if 2 * rnum < (q.den : ℤ) then fl
    else if fl % 2 = 0 then fl else fl + 1
  let w := (n / 100).toNat
  let f := (n % 100).toNat
  (if q.num < 0 then ['-'] else []) ++ natDigits w ++
    '.' :: (if f < 10 then '0' :: natDigits f else natDigits f)

/-- Fraction digits needed to write q exactly in decimal (the
denominator of any parsed JSON float divides a power of ten). -/
def fracDigitsNeeded (q : ℚ) : Nat :=
  (((List.range (q.den + 1)).find? (fun k => (q * (10 : ℚ) ^ k).den = 1)).getD q.den)

/-- Decimal rendering of a float value modelled as the exact rational q
(stands in for Python's repr of the nearest double). -/
def floatRepr (q : ℚ) : Str :=
  let k := fracDigitsNeeded q
  if k = 0 then intStr q.num ++ (".0".toList)
  else
    let m := (|q| * (10 : ℚ) ^ k).num.toNat
    let ds := natDigits m
    let ds := if ds.length < k + 1 then List.replicate (k + 1 - ds.length) '0' ++ ds else ds
    (if q < 0 then ['-'] else []) ++ ds.take (ds.length - k) ++ '.' :: ds.drop (ds.length - k)

/-- Python repr of a decoded JSON value; string escaping inside
containers is abridged to plain quoting, which no theorem inspects. -/
def pyRepr : JsonValue → Str
  | .null => "None".toList
  | .bool true => "True".toList
  | .bool false => "False".toList
  | .int n => intStr n
  | .float q => floatRepr q
  | .nan => "nan".toList
  | .inf false => "inf".toList
  | .inf true => "-inf".toList
  | .str s => Char.ofNat 39 :: s ++ [Char.ofNat 39]
  | .arr xs => '[' :: List.intercalate (", ".toList) (xs.attach.map (fun x => pyRepr x.1)) ++ [']']
  | .obj kvs =>
    Char.ofNat 123 ::
      List.intercalate (", ".toList)
        (kvs.attach.map (fun kv => Char.ofNat 39 :: kv.1.1 ++ Char.ofNat 39 :: ": ".toList ++ pyRepr kv.1.2))
      ++ [Char.ofNat 125]
termination_by v => sizeOf v
decreasing_by
· have := List.sizeOf_lt_of_mem x.2
  simp only [JsonValue.arr.sizeOf_spec]
  omega
· obtain ⟨⟨k, v⟩, hm⟩ := kv
  have := List.sizeOf_lt_of_mem hm
  simp only [JsonValue.obj.sizeOf_spec, Prod.mk.sizeOf_spec] at this ⊢
  omega

/-- Python str() of a decoded JSON value, as interpolated by an f-string
field without a format spec (str() of a str is itself, everything else
renders as its repr). -/
def pyStr (v : JsonValue) : Str :=
  match v with
  | .str s => s
  | v => pyRepr v

/-- The exceptions the formatter can raise: AttributeError when the
decoded value is not a dict (no .get), ValueError when a str meets the
.2f format spec, TypeError when None/list/dict meet .2f or /. -/
inductive PyErr where
  | attributeError : PyErr
  | valueError : PyErr
  | typeError : PyErr

/-- Evaluation of the f-string field value with format spec .2f:
numbers (and bools) format; NaN and infinities print their names; a str
raises ValueError; None, lists and dicts raise TypeError. -/
def pyFormatFixed2 : JsonValue → Except PyErr Str
  | .int n => .ok (formatFixed2Q (n : ℚ))
  | .float q => .ok (formatFixed2Q q)
  | .bool b => .ok (formatFixed2Q (if b then 1 else 0))
  | .nan => .ok ("nan".toList)
  | .inf false => .ok ("inf".toList)
  | .inf true => .ok ("-inf".toList)
  | .str _ => .error .valueError
  | _ => .error .typeError

/-- Python's x/100 (true division, yielding a float): TypeError for
non-numeric values. -/
def pyDiv100 : JsonValue → Except PyErr JsonValue
  | .int n => .ok (.float ((n : ℚ) / 100))
  | .float q => .ok (.float (q / 100))
  | .bool b => .ok (.float ((if b then (1 : ℚ) else 0) / 100))
  | .nan => .ok .nan
  | .inf b => .ok (.inf b)
  | _ => .error .typeError

def typeK : Str := "type".toList
def deviceFoundS : Str := "device_found".toList
def statusS : Str := "status".toList
def errorS : Str := "error".toList
def addrK : Str := "device_addr".toList
def distK : Str := "distance_cm".toList
def rssiK : Str := "rssi_dbm".toList
def tsK : Str := "timestamp_ms".toList
def chK : Str := "channel".toList
def prfK : Str := "prf".toList
def fqK : Str := "frame_quality".toList

/-- The separator line of the device_found block. -/
def sep60 : Str := List.replicate 60 '='

/-- The ten printed lines of the device_found block (the first print
emits a leading newline before the separator). -/
def deviceBlock (addr ts ch pr fq : JsonValue) (distS distMS rssiS : Str) : List Str :=
  [ '\n' :: sep60,
    "Device Found: 0x".toList ++ pyStr addr,
    sep60,
    "Timestamp:      ".toList ++ pyStr ts ++ (" ms".toList),
    "Distance:       ".toList ++ distS ++ (" cm (".toList) ++ distMS ++ (" m)".toList),
    "RSSI:           ".toList ++ rssiS ++ (" dBm".toList),
    "Channel:        ".toList ++ pyStr ch,
    "PRF:            ".toList ++ pyStr pr ++ (" MHz".toList),
    "Frame Quality:  ".toList ++ pyStr fq,
    sep60 ]

/-- format_device_info (monitor.py lines 22-51).  The wall-clock string
of the status/error lines is passed in as `now`.  The result is the list
of printed lines, or the exception raised; when an exception is raised
mid-block, the lines already printed are not modelled — only the
exception is. -/
def formatDeviceInfo (now : Str) (info : JsonValue) : Except PyErr (List Str) :=
  match info with
  | .obj kvs =>
    if isStrVal (pyGet kvs typeK) deviceFoundS then
      match pyFormatFixed2 (pyGetD kvs distK (.int 0)) with
      | .error e => .error e
      | .ok distS =>
        match pyDiv100 (pyGetD kvs distK (.int 0)) with
        | .error e => .error e
        | .ok dm =>
          match pyFormatFixed2 dm with
          | .error e => .error e
          | .ok distMS =>
            match pyFormatFixed2 (pyGetD kvs rssiK (.int 0)) with
            | .error e => .error e
            | .ok rssiS =>
              .ok (deviceBlock
                (pyGetD kvs addrK (.str ("Unknown".toList)))
                (pyGetD kvs tsK (.int 0))
                (pyGetD kvs chK (.int 0))
                (pyGetD kvs prfK (.int 0))
                (pyGetD kvs fqK (.int 0))
                distS distMS rssiS)
    else if isStrVal (pyGet kvs typeK) statusS then
      .ok [ '[' :: now ++ ("] STATUS: ".toList) ++ pyStr (pyGetD kvs ("message".toList) (.str [])) ]
    else if isStrVal (pyGet kvs typeK) errorS then
      .ok [ '[' :: now ++ ("] ERROR: ".toList) ++ pyStr (pyGetD kvs ("message".toList) (.str [])) ]
    else
      .ok []
  | _ => .error .attributeError

/-- What one processed line produced: the printed strings, in order,
and whether format_device_info was invoked. -/
structure StepResult where
  outputs : List Str
  invoked : Bool

/-- Prepend already-printed plain-text segments to a step result. -/
def prependOuts (os : List Str) : Except PyErr StepResult → Except PyErr StepResult
  | .ok st => .ok ⟨os ++ st.outputs, st.invoked⟩
  | .error e => .error e

/-- A trimmed segment is printed only when non-empty. -/
def emitIf (t : Str) : List Str := if t = [] then [] else [t]

/-- parse_device_info (monitor.py lines 14-19) composed with the
dispatch of main (lines 111-116): decode the candidate; on a decode
failure, or a falsy decoded value, print the candidate verbatim;
otherwise hand the value to format_device_info. -/
def handleCandidate (now cand : Str) : Except PyErr StepResult :=
  match jsonLoads cand with
  | some v =>
    if truthy v then
      match formatDeviceInfo now v with
      | .ok ls => .ok ⟨ls, true⟩
      | .error e => .error e
    else .ok ⟨[cand], false⟩
  | none => .ok ⟨[cand], false⟩

/-- One iteration of main's read loop on a decoded line (monitor.py
lines 88-116): strip, skip when empty, split off the plain-text
segments around the brace-delimited candidate, print them trimmed, then
process the candidate. -/
def processLine (now line : Str) : Except PyErr StepResult :=
  if pyStrip line = [] then .ok ⟨[], false⟩
  else
    match (splitLine (pyStrip line)).candidate with
    | none => .ok ⟨[pyStrip line], false⟩
    | some cand =>
      prependOuts
        (emitIf (pyStrip (splitLine (pyStrip line)).pre) ++
         emitIf (pyStrip (splitLine (pyStrip line)).suf))
        (handleCandidate now cand)

/-- A primitive (flat) JSON value: not an object and not an array. -/
def flatValB : JsonValue → Bool
  | .obj _ => false
  | .arr _ => false
  | _ => true

/-- The string is exactly the text of a syntactically valid flat JSON
object: it starts with the opening brace, ends with the closing brace
(no surrounding padding), json.loads decodes it, and every member value
is primitive. -/
def isFlatJsonObjectB (j : Str) : Bool :=
  decide (j.head? = some '{') && decide (j.getLast? = some '}') &&
    (match jsonLoads j with
     | some (.obj kvs) => kvs.all (fun kv => flatValB kv.2)
     | _ => false)

/-- Values the .2f format spec accepts without raising (numbers, bools,
NaN and the infinities). -/
def fixed2OK : JsonValue → Bool
  | .str _ => false
  | .null => false
  | .arr _ => false
  | .obj _ => false
  | _ => true

/-- The exact rational carried by a finite numeric value (bools count as
0/1, as Python arithmetic treats them). -/
def qOfNum : JsonValue → Option ℚ
  | .int n => some (n : ℚ)
  | .float q => some q
  | .bool b => some (if b then 1 else 0)
  | _ => none

/-- A fixed wall-clock string for the concrete instances. -/
def clock0 : Str := "12:00:00".toList

/-- The candidate of the C2 counterexample: a well-formed JSON object
whose distance_cm field holds a string. -/
def c2cand : Str := "\x7b\"type\":\"device_found\",\"distance_cm\":\"oops\"\x7d".toList

/-- The dict json.loads decodes c2cand to. -/
def c2obj : JsonValue :=
  .obj [(typeK, .str deviceFoundS), (distK, .str ("oops".toList))]

theorem pyFind_eq_none {c : Char} {s : Str} (h : c ∉ s) : pyFind c s = none := by
  induction s with
  | nil => rfl
  | cons a t ih =>
    have h1 : ¬ a = c := fun e => h (by simp [e])
    have h2 : c ∉ t := fun e => h (List.mem_cons_of_mem _ e)
    simp [pyFind, h1, ih h2]

theorem pyFind_append {c : Char} {a : Str} (r : Str) (h : c ∉ a) :
    pyFind c (a ++ c :: r) = some a.length := by
  induction a with
  | nil => simp [pyFind]
  | cons x t ih =>
    have h1 : ¬ x = c := fun e => h (by simp [e])
    have h2 : c ∉ t := fun e => h (List.mem_cons_of_mem _ e)
    simp [pyFind, h1, ih h2]

theorem head?_shape {l : Str} {c : Char} (h : l.head? = some c) : ∃ t, l = c :: t := by
  cases l with
  | nil => cases h
  | cons a t => exact ⟨t, by rw [Option.some.inj h]⟩

theorem getLast?_shape {l : Str} {c : Char} (h : l.getLast? = some c) : ∃ t, l = t ++ [c] := by
  rw [← List.head?_reverse] at h
  cases hr : l.reverse with
  | nil => rw [hr] at h; cases h
  | cons x u =>
    rw [hr] at h
    obtain rfl : x = c := Option.some.inj h
    refine ⟨u.reverse, ?_⟩
    rw [← List.reverse_reverse l, hr, List.reverse_cons]

theorem splitLine_decomp (p j s : Str) (hp : '{' ∉ p) (hs : '}' ∉ s)
    (hjh : j.head? = some '{') (hjl : j.getLast? = some '}') :
    splitLine (p ++ (j ++ s)) = ⟨p, some j, s⟩ := by
  obtain ⟨jt, hj1⟩ := head?_shape hjh
  obtain ⟨ji, hj2⟩ := getLast?_shape hjl
  have hlen : 1 ≤ j.length := by rw [hj1]; simp
  have hfind : pyFind '{' (p ++ (j ++ s)) = some p.length := by
    rw [hj1, List.cons_append]
    exact pyFind_append _ hp
  have hrfind : pyRFind '}' (j ++ s) = some (j.length - 1) := by
    unfold pyRFind
    have hrev : (j ++ s).reverse = s.reverse ++ '}' :: ji.reverse := by
      rw [hj2]; simp
    rw [hrev, pyFind_append _ (fun hm => hs (List.mem_reverse.mp hm))]
    simp only [Option.map_some', Option.some.injEq, List.length_append,
      List.length_reverse]
    omega
  unfold splitLine
  simp only [hfind, List.drop_left, List.take_left, hrfind]
  cases s with
  | nil =>
    have hcond : ¬ (j.length - 1 + 1 < (j ++ ([] : Str)).length) := by
      simp; omega
    rw [if_neg hcond]
    simp
  | cons c0 t0 =>
    have hcond : j.length - 1 + 1 < (j ++ (c0 :: t0)).length := by
      simp
      omega
    rw [if_pos hcond]
    have h3 : j.length - 1 + 1 = j.length := by omega
    rw [h3, List.take_left, List.drop_left]

/-- C4: for every input line of the read loop (such lines are already
stripped, which the first hypothesis records) containing no opening
brace, the splitter returns no candidate, the whole line is printed
byte-for-byte as plain text, and the formatter is never invoked. -/
theorem claim_C4_no_brace_plain_text (now line : Str) (h1 : pyStrip line = line)
    (h2 : '{' ∉ line) (h3 : line ≠ []) :
    processLine now line = .ok ⟨[line], false⟩ := by
  have hsp : splitLine line = ⟨[], none, []⟩ := by
    unfold splitLine
    rw [pyFind_eq_none h2]
  unfold processLine
  rw [h1, if_neg h3, hsp]

theorem claim_C4_witness :
    processLine clock0 ("Booting UWB firmware v1.2".toList) =
      .ok ⟨["Booting UWB firmware v1.2".toList], false⟩ :=
  claim_C4_no_brace_plain_text clock0 ("Booting UWB firmware v1.2".toList)
    (by decide) (by decide) (by decide)

theorem splitLine_some {s : Str} {i : Nat} (h : pyFind '{' s = some i) :
    splitLine s =
      (match pyRFind '}' (s.drop i) with
      | some j =>
        if j + 1 < (s.drop i).length then
          ⟨s.take i, some ((s.drop i).take (j + 1)), (s.drop i).drop (j + 1)⟩
        else ⟨s.take i, some (s.drop i), []⟩
      | none => ⟨s.take i, some (s.drop i), []⟩) := by
  unfold splitLine
  rw [h]

theorem splitLine_some_none {s : Str} {i : Nat} (h1 : pyFind '{' s = some i)
    (h2 : pyRFind '}' (s.drop i) = none) :
    splitLine s = ⟨s.take i, some (s.drop i), []⟩ := by
  rw [splitLine_some h1, h2]

theorem splitLine_some_close {s : Str} {i jdx : Nat} (h1 : pyFind '{' s = some i)
    (h2 : pyRFind '}' (s.drop i) = some jdx) (h3 : jdx + 1 < (s.drop i).length) :
    splitLine s = ⟨s.take i, some ((s.drop i).take (jdx + 1)), (s.drop i).drop (jdx + 1)⟩ := by
  rw [splitLine_some h1, h2]
  exact if_pos h3

theorem splitLine_some_end {s : Str} {i jdx : Nat} (h1 : pyFind '{' s = some i)
    (h2 : pyRFind '}' (s.drop i) = some jdx) (h3 : ¬ jdx + 1 < (s.drop i).length) :
    splitLine s = ⟨s.take i, some (s.drop i), []⟩ := by
  rw [splitLine_some h1, h2]
  exact if_neg h3

/-- C5: when the splitter yields a candidate, the raw pre-segment, the
candidate and the raw suf-segment concatenate back to the processed
line exactly (the lines of the read loop are pre-stripped, so this span
is the entire original line); when it yields no candidate, the whole
line is printed as plain text. -/
theorem claim_C5_split_reconstruction (now line : Str) (h1 : pyStrip line = line)
    (h3 : line ≠ []) :
    (∀ c, (splitLine line).candidate = some c →
      (splitLine line).pre ++ c ++ (splitLine line).suf = line) ∧
    ((splitLine line).candidate = none →
      processLine now line = .ok ⟨[line], false⟩) := by
  constructor
  · intro c hc
    cases hf : pyFind '{' line with
    | none =>
      have hsp : splitLine line = ⟨[], none, []⟩ := by
        unfold splitLine
        rw [hf]
      rw [hsp] at hc
      simp at hc
    | some i =>
      cases hrf : pyRFind '}' (line.drop i) with
      | none =>
        rw [splitLine_some_none hf hrf] at hc ⊢
        simp only [Option.some.injEq] at hc
        subst hc
        simp [List.take_append_drop]
      | some jdx =>
        by_cases hcond : jdx + 1 < (line.drop i).length
        · rw [splitLine_some_close hf hrf hcond] at hc ⊢
          simp only [Option.some.injEq] at hc
          subst hc
          simp only [List.append_assoc, List.take_append_drop]
        · rw [splitLine_some_end hf hrf hcond] at hc ⊢
          simp only [Option.some.injEq] at hc
          subst hc
          simp [List.take_append_drop]
  · intro hc
    unfold processLine
    rw [h1, if_neg h3, hc]

theorem claim_C5_witness :
    (splitLine ("ab\x7bc\x7d d".toList)).pre ++ ("\x7bc\x7d".toList) ++
        (splitLine ("ab\x7bc\x7d d".toList)).suf = "ab\x7bc\x7d d".toList :=
  (claim_C5_split_reconstruction clock0 ("ab\x7bc\x7d d".toList) (by decide)
    (by decide)).1 ("\x7bc\x7d".toList) (by decide)

/-- C6: for a line whose first opening brace is at position i and that
has no closing brace at or after i, the splitter's candidate is the
region from i through the end of the line and the suffix is empty. -/
theorem claim_C6_no_closing_brace (s : Str) (i : Nat)
    (h1 : pyFind '{' s = some i) (h2 : '}' ∉ s.drop i) :
    (splitLine s).candidate = some (s.drop i) ∧ (splitLine s).suf = [] := by
  have hr : pyRFind '}' (s.drop i) = none := by
    unfold pyRFind
    rw [pyFind_eq_none (fun hm => h2 (List.mem_reverse.mp hm))]
    rfl
  rw [splitLine_some_none h1 hr]
  exact ⟨rfl, rfl⟩

theorem claim_C6_witness :
    (splitLine ("ab\x7bcd".toList)).candidate = some (("ab\x7bcd".toList).drop 2) ∧
      (splitLine ("ab\x7bcd".toList)).suf = [] :=
  claim_C6_no_closing_brace ("ab\x7bcd".toList) 2 (by decide) (by decide)

theorem flatObj_shape {j : Str} (hj : isFlatJsonObjectB j = true) :
    j.head? = some '{' ∧ j.getLast? = some '}' := by
  unfold isFlatJsonObjectB at hj
  simp only [Bool.and_eq_true, decide_eq_true_eq] at hj
  exact ⟨hj.1.1, hj.1.2⟩

/-- C1: a line made of a prefix with no opening brace, a flat JSON
object, and a suffix with no closing brace (pre-stripped, as every line
of the read loop is) is processed by printing the trimmed prefix when
non-empty, printing the trimmed suffix when non-empty, and handing
exactly the JSON object text to the candidate-processing stage. -/
theorem claim_C1_splitter_recovers (now p j s : Str)
    (hline : pyStrip (p ++ (j ++ s)) = p ++ (j ++ s))
    (hp : '{' ∉ p) (hs : '}' ∉ s) (hj : isFlatJsonObjectB j = true) :
    processLine now (p ++ (j ++ s)) =
      prependOuts (emitIf (pyStrip p) ++ emitIf (pyStrip s)) (handleCandidate now j) := by
  obtain ⟨hjh, hjl⟩ := flatObj_shape hj
  have hne : p ++ (j ++ s) ≠ [] := by
    obtain ⟨jt, hj1⟩ := head?_shape hjh
    simp [hj1]
  have hsp := splitLine_decomp p j s hp hs hjh hjl
  unfold processLine
  rw [hline, if_neg hne, hsp]

theorem claim_C1_witness :
    processLine clock0 (("Zephyr: init ".toList) ++
        (("\x7b\"type\":\"status\",\"message\":\"scanning\"\x7d".toList) ++ (" ok".toList))) =
      prependOuts (emitIf (pyStrip ("Zephyr: init ".toList)) ++ emitIf (pyStrip (" ok".toList)))
        (handleCandidate clock0 ("\x7b\"type\":\"status\",\"message\":\"scanning\"\x7d".toList)) :=
  claim_C1_splitter_recovers clock0 ("Zephyr: init ".toList)
    ("\x7b\"type\":\"status\",\"message\":\"scanning\"\x7d".toList) (" ok".toList)
    (by decide) (by decide) (by decide) (by rfl)

/-- C3: a candidate string on which json.loads fails never raises:
parse_device_info turns the decode error into None and main prints the
candidate verbatim as plain text, without invoking the formatter. -/
theorem claim_C3_malformed_verbatim (now cand : Str) (h : jsonLoads cand = none) :
    handleCandidate now cand = .ok ⟨[cand], false⟩ := by
  unfold handleCandidate
  rw [h]

theorem claim_C3_witness :
    jsonLoads ("\x7b\"type\":\"device_found\",".toList) = none ∧
      handleCandidate clock0 ("\x7b\"type\":\"device_found\",".toList) =
        .ok ⟨[("\x7b\"type\":\"device_found\",".toList)], false⟩ :=
  ⟨by rfl, claim_C3_malformed_verbatim clock0 ("\x7b\"type\":\"device_found\",".toList) (by rfl)⟩

/-- C9: the candidate consisting of the empty JSON object decodes
successfully to the empty dict, but the empty dict is falsy, so main
takes the failure path: the candidate is printed verbatim and
format_device_info is never invoked. -/
theorem claim_C9_empty_object_verbatim (now : Str) :
    jsonLoads ("\x7b\x7d".toList) = some (.obj []) ∧
      handleCandidate now ("\x7b\x7d".toList) = .ok ⟨[("\x7b\x7d".toList)], false⟩ :=
  ⟨rfl, rfl⟩

/-- C10: a decoded non-empty dict whose type field is absent or not one
of device_found, status, error produces no output at all and raises
nothing: every branch of format_device_info falls through. -/
theorem claim_C10_unknown_type_dropped (now : Str) (kvs : List (Str × JsonValue))
    (hne : kvs ≠ [])
    (h1 : isStrVal (pyGet kvs typeK) deviceFoundS = false)
    (h2 : isStrVal (pyGet kvs typeK) statusS = false)
    (h3 : isStrVal (pyGet kvs typeK) errorS = false) :
    formatDeviceInfo now (.obj kvs) = .ok [] := by
  unfold formatDeviceInfo
  simp [h1, h2, h3]

theorem claim_C10_witness :
    formatDeviceInfo clock0 (.obj [(("foo".toList), JsonValue.int 1)]) = .ok [] :=
  claim_C10_unknown_type_dropped clock0 [(("foo".toList), JsonValue.int 1)]
    (List.cons_ne_nil _ _) (by rfl) (by rfl) (by rfl)

theorem fixed2_chain {v : JsonValue} (h : fixed2OK v = true) :
    ∃ a, pyFormatFixed2 v = .ok a ∧
      ∃ w, pyDiv100 v = .ok w ∧ ∃ b, pyFormatFixed2 w = .ok b := by
  cases v with
  | int n => exact ⟨_, rfl, _, rfl, _, rfl⟩
  | float q => exact ⟨_, rfl, _, rfl, _, rfl⟩
  | bool b => exact ⟨_, rfl, _, rfl, _, rfl⟩
  | nan => exact ⟨_, rfl, _, rfl, _, rfl⟩
  | inf b => cases b <;> exact ⟨_, rfl, _, rfl, _, rfl⟩
  | str s => simp [fixed2OK] at h
  | null => simp [fixed2OK] at h
  | arr xs => simp [fixed2OK] at h
  | obj kvs => simp [fixed2OK] at h

/-- C2, amended: format_device_info never raises on a decoded JSON
dict provided that, when the record's type is device_found, the values
found for distance_cm and rssi_dbm (or their defaults when absent)
are numeric in Python's sense (number, bool, NaN or an infinity); with
a string in one of those two fields the device_found branch raises. -/
theorem claim_C2_formatter_total_on_numeric (now : Str) (kvs : List (Str × JsonValue))
    (h : isStrVal (pyGet kvs typeK) deviceFoundS = true →
      fixed2OK (pyGetD kvs distK (.int 0)) = true ∧
      fixed2OK (pyGetD kvs rssiK (.int 0)) = true) :
    ∃ ls, formatDeviceInfo now (.obj kvs) = .ok ls := by
  unfold formatDeviceInfo
  by_cases hb : isStrVal (pyGet kvs typeK) deviceFoundS = true
  · obtain ⟨h1, h2⟩ := h hb
    obtain ⟨a, ha, w, hw, b, hbb⟩ := fixed2_chain h1
    obtain ⟨a2, ha2, w2, hw2, b2, hbb2⟩ := fixed2_chain h2
    simp only [hb, if_true, ha, hw, hbb, ha2]
    exact ⟨_, rfl⟩
  · have hb2 : isStrVal (pyGet kvs typeK) deviceFoundS = false := by
      simp at hb
      exact hb
    cases hs : isStrVal (pyGet kvs typeK) statusS with
    | true =>
      simp only [hb2, hs]
      exact ⟨_, rfl⟩
    | false =>
      cases he : isStrVal (pyGet kvs typeK) errorS with
      | true =>
        simp only [hb2, hs, he]
        exact ⟨_, rfl⟩
      | false =>
        simp only [hb2, hs, he]
        exact ⟨_, rfl⟩

theorem claim_C2_witness :
    ∃ ls, formatDeviceInfo clock0 (.obj [((typeK : Str), JsonValue.str statusS)]) = .ok ls :=
  claim_C2_formatter_total_on_numeric clock0 [((typeK : Str), JsonValue.str statusS)]
    (fun h => absurd h (by decide))

/-- C2, counterexample to the claim as stated: this candidate decodes
to a JSON dict, yet format_device_info raises a ValueError on it (a
device_found record whose distance_cm is a string meets the .2f format
spec), and nothing in the script catches it. -/
theorem claim_C2_counterexample :
    jsonLoads c2cand = some c2obj ∧
      formatDeviceInfo clock0 c2obj = .error .valueError :=
  ⟨by rfl, by rfl⟩

theorem pyGet_append_single (kvs : List (Str × JsonValue)) (k : Str) (d : JsonValue)
    (k2 : Str) :
    pyGet (kvs ++ [(k, d)]) k2 = if k2 = k then some d else pyGet kvs k2 := by
  induction kvs with
  | nil =>
    by_cases h : k2 = k
    · subst h
      simp [pyGet]
    · have h2 : ¬ k = k2 := fun e => h (Eq.symm e)
      simp [pyGet, h, h2]
  | cons kv rest ih =>
    have lhs_eq : pyGet ((kv :: rest) ++ [(k, d)]) k2 =
        (match pyGet (rest ++ [(k, d)]) k2 with
         | some v => some v
         | none => if kv.1 = k2 then some kv.2 else none) := rfl
    rw [lhs_eq, ih]
    by_cases h : k2 = k
    · simp only [if_pos h]
    · simp only [if_neg h]
      rfl

theorem pyGet_append_ne (kvs : List (Str × JsonValue)) (k : Str) (d : JsonValue)
    (k2 : Str) (h : ¬ k2 = k) :
    pyGet (kvs ++ [(k, d)]) k2 = pyGet kvs k2 := by
  rw [pyGet_append_single, if_neg h]

theorem pyGetD_append_ne (kvs : List (Str × JsonValue)) (k : Str) (d : JsonValue)
    (k2 : Str) (d2 : JsonValue) (h : ¬ k2 = k) :
    pyGetD (kvs ++ [(k, d)]) k2 d2 = pyGetD kvs k2 d2 := by
  unfold pyGetD
  rw [pyGet_append_ne _ _ _ _ h]

theorem pyGetD_append_absent (kvs : List (Str × JsonValue)) (k : Str) (d : JsonValue)
    (h : pyGet kvs k = none) :
    pyGetD (kvs ++ [(k, d)]) k d = pyGetD kvs k d := by
  unfold pyGetD
  rw [pyGet_append_single, if_pos rfl, h]
  rfl

theorem formatDeviceInfo_congr (now : Str) (kvs kvs2 : List (Str × JsonValue))
    (hty : pyGet kvs typeK = pyGet kvs2 typeK)
    (haddr : pyGetD kvs addrK (.str ("Unknown".toList)) = pyGetD kvs2 addrK (.str ("Unknown".toList)))
    (hdist : pyGetD kvs distK (.int 0) = pyGetD kvs2 distK (.int 0))
    (hrssi : pyGetD kvs rssiK (.int 0) = pyGetD kvs2 rssiK (.int 0))
    (hts : pyGetD kvs tsK (.int 0) = pyGetD kvs2 tsK (.int 0))
    (hch : pyGetD kvs chK (.int 0) = pyGetD kvs2 chK (.int 0))
    (hprf : pyGetD kvs prfK (.int 0) = pyGetD kvs2 prfK (.int 0))
    (hfq : pyGetD kvs fqK (.int 0) = pyGetD kvs2 fqK (.int 0))
    (hmsg : pyGetD kvs ("message".toList) (.str []) = pyGetD kvs2 ("message".toList) (.str [])) :
    formatDeviceInfo now (.obj kvs) = formatDeviceInfo now (.obj kvs2) := by
  simp only [formatDeviceInfo]
  rw [hty, haddr, hdist, hrssi, hts, hch, hprf, hfq, hmsg]

theorem isStrVal_ne {v : Option JsonValue} {a b : Str} (h : isStrVal v a = true)
    (hne : a ≠ b) : isStrVal v b = false := by
  cases v with
  | none => simp [isStrVal] at h
  | some w =>
    cases w with
    | str s =>
      simp [isStrVal] at h ⊢
      rw [h]
      exact hne
    | null => rfl
    | bool b2 => rfl
    | int n => rfl
    | float q => rfl
    | nan => rfl
    | inf b2 => rfl
    | arr xs => rfl
    | obj kvs => rfl


/-- C7: in a decoded device_found record, each absent field renders as
its default: the record formats identically to the record with the
explicit default appended (device_addr defaults to the string Unknown,
the numeric fields to the int 0), and a device_found record with all
seven fields absent renders the fully-defaulted block without error;
for status and error records an absent message field renders as the
empty string. -/
theorem claim_C7_missing_field_defaults (now : Str) (kvs : List (Str × JsonValue)) :
    (isStrVal (pyGet kvs typeK) deviceFoundS = true →
      (pyGet kvs addrK = none →
        formatDeviceInfo now (.obj kvs) =
          formatDeviceInfo now (.obj (kvs ++ [(addrK, JsonValue.str ("Unknown".toList))]))) ∧
      (pyGet kvs distK = none →
        formatDeviceInfo now (.obj kvs) =
          formatDeviceInfo now (.obj (kvs ++ [(distK, JsonValue.int 0)]))) ∧
      (pyGet kvs rssiK = none →
        formatDeviceInfo now (.obj kvs) =
          formatDeviceInfo now (.obj (kvs ++ [(rssiK, JsonValue.int 0)]))) ∧
      (pyGet kvs tsK = none →
        formatDeviceInfo now (.obj kvs) =
          formatDeviceInfo now (.obj (kvs ++ [(tsK, JsonValue.int 0)]))) ∧
      (pyGet kvs chK = none →
        formatDeviceInfo now (.obj kvs) =
          formatDeviceInfo now (.obj (kvs ++ [(chK, JsonValue.int 0)]))) ∧
      (pyGet kvs prfK = none →
        formatDeviceInfo now (.obj kvs) =
          formatDeviceInfo now (.obj (kvs ++ [(prfK, JsonValue.int 0)]))) ∧
      (pyGet kvs fqK = none →
        formatDeviceInfo now (.obj kvs) =
          formatDeviceInfo now (.obj (kvs ++ [(fqK, JsonValue.int 0)]))) ∧
      (pyGet kvs addrK = none → pyGet kvs distK = none → pyGet kvs rssiK = none → pyGet kvs tsK = none → pyGet kvs chK = none → pyGet kvs prfK = none → pyGet kvs fqK = none →
        formatDeviceInfo now (.obj kvs) =
          .ok (deviceBlock (.str ("Unknown".toList)) (.int 0) (.int 0) (.int 0) (.int 0)
            ("0.00".toList) ("0.00".toList) ("0.00".toList)))) ∧
    (isStrVal (pyGet kvs typeK) statusS = true → pyGet kvs ("message".toList) = none →
      formatDeviceInfo now (.obj kvs) = .ok [ '[' :: now ++ ("] STATUS: ".toList) ]) ∧
    (isStrVal (pyGet kvs typeK) errorS = true → pyGet kvs ("message".toList) = none →
      formatDeviceInfo now (.obj kvs) = .ok [ '[' :: now ++ ("] ERROR: ".toList) ]) := by
  refine ⟨fun ht => ⟨?_, ?_, ?_, ?_, ?_, ?_, ?_, ?_⟩, fun ht hm => ?_, fun ht hm => ?_⟩

  · intro habs
    refine formatDeviceInfo_congr now kvs _ ?_ ?_ ?_ ?_ ?_ ?_ ?_ ?_ ?_
    · exact (pyGet_append_ne kvs addrK (JsonValue.str ("Unknown".toList)) typeK (by decide)).symm
    · exact (pyGetD_append_absent kvs addrK (JsonValue.str ("Unknown".toList)) habs).symm
    · exact (pyGetD_append_ne kvs addrK (JsonValue.str ("Unknown".toList)) distK (JsonValue.int 0) (by decide)).symm
    · exact (pyGetD_append_ne kvs addrK (JsonValue.str ("Unknown".toList)) rssiK (JsonValue.int 0) (by decide)).symm
    · exact (pyGetD_append_ne kvs addrK (JsonValue.str ("Unknown".toList)) tsK (JsonValue.int 0) (by decide)).symm
    · exact (pyGetD_append_ne kvs addrK (JsonValue.str ("Unknown".toList)) chK (JsonValue.int 0) (by decide)).symm
    · exact (pyGetD_append_ne kvs addrK (JsonValue.str ("Unknown".toList)) prfK (JsonValue.int 0) (by decide)).symm
    · exact (pyGetD_append_ne kvs addrK (JsonValue.str ("Unknown".toList)) fqK (JsonValue.int 0) (by decide)).symm
    · exact (pyGetD_append_ne kvs addrK (JsonValue.str ("Unknown".toList)) ("message".toList) (JsonValue.str []) (by decide)).symm
  · intro habs
    refine formatDeviceInfo_congr now kvs _ ?_ ?_ ?_ ?_ ?_ ?_ ?_ ?_ ?_
    · exact (pyGet_append_ne kvs distK (JsonValue.int 0) typeK (by decide)).symm
    · exact (pyGetD_append_ne kvs distK (JsonValue.int 0) addrK (JsonValue.str ("Unknown".toList)) (by decide)).symm
    · exact (pyGetD_append_absent kvs distK (JsonValue.int 0) habs).symm
    · exact (pyGetD_append_ne kvs distK (JsonValue.int 0) rssiK (JsonValue.int 0) (by decide)).symm
    · exact (pyGetD_append_ne kvs distK (JsonValue.int 0) tsK (JsonValue.int 0) (by decide)).symm
    · exact (pyGetD_append_ne kvs distK (JsonValue.int 0) chK (JsonValue.int 0) (by decide)).symm
    · exact (pyGetD_append_ne kvs distK (JsonValue.int 0) prfK (JsonValue.int 0) (by decide)).symm
    · exact (pyGetD_append_ne kvs distK (JsonValue.int 0) fqK (JsonValue.int 0) (by decide)).symm
    · exact (pyGetD_append_ne kvs distK (JsonValue.int 0) ("message".toList) (JsonValue.str []) (by decide)).symm
  · intro habs
    refine formatDeviceInfo_congr now kvs _ ?_ ?_ ?_ ?_ ?_ ?_ ?_ ?_ ?_
    · exact (pyGet_append_ne kvs rssiK (JsonValue.int 0) typeK (by decide)).symm
    · exact (pyGetD_append_ne kvs rssiK (JsonValue.int 0) addrK (JsonValue.str ("Unknown".toList)) (by decide)).symm
    · exact (pyGetD_append_ne kvs rssiK (JsonValue.int 0) distK (JsonValue.int 0) (by decide)).symm
    · exact (pyGetD_append_absent kvs rssiK (JsonValue.int 0) habs).symm
    · exact (pyGetD_append_ne kvs rssiK (JsonValue.int 0) tsK (JsonValue.int 0) (by decide)).symm
    · exact (pyGetD_append_ne kvs rssiK (JsonValue.int 0) chK (JsonValue.int 0) (by decide)).symm
    · exact (pyGetD_append_ne kvs rssiK (JsonValue.int 0) prfK (JsonValue.int 0) (by decide)).symm
    · exact (pyGetD_append_ne kvs rssiK (JsonValue.int 0) fqK (JsonValue.int 0) (by decide)).symm
    · exact (pyGetD_append_ne kvs rssiK (JsonValue.int 0) ("message".toList) (JsonValue.str []) (by decide)).symm
  · intro habs
    refine formatDeviceInfo_congr now kvs _ ?_ ?_ ?_ ?_ ?_ ?_ ?_ ?_ ?_
    · exact (pyGet_append_ne kvs tsK (JsonValue.int 0) typeK (by decide)).symm
    · exact (pyGetD_append_ne kvs tsK (JsonValue.int 0) addrK (JsonValue.str ("Unknown".toList)) (by decide)).symm
    · exact (pyGetD_append_ne kvs tsK (JsonValue.int 0) distK (JsonValue.int 0) (by decide)).symm
    · exact (pyGetD_append_ne kvs tsK (JsonValue.int 0) rssiK (JsonValue.int 0) (by decide)).symm
    · exact (pyGetD_append_absent kvs tsK (JsonValue.int 0) habs).symm
    · exact (pyGetD_append_ne kvs tsK (JsonValue.int 0) chK (JsonValue.int 0) (by decide)).symm
    · exact (pyGetD_append_ne kvs tsK (JsonValue.int 0) prfK (JsonValue.int 0) (by decide)).symm
    · exact (pyGetD_append_ne kvs tsK (JsonValue.int 0) fqK (JsonValue.int 0) (by decide)).symm
    · exact (pyGetD_append_ne kvs tsK (JsonValue.int 0) ("message".toList) (JsonValue.str []) (by decide)).symm
  · intro habs
    refine formatDeviceInfo_congr now kvs _ ?_ ?_ ?_ ?_ ?_ ?_ ?_ ?_ ?_
    · exact (pyGet_append_ne kvs chK (JsonValue.int 0) typeK (by decide)).symm
    · exact (pyGetD_append_ne kvs chK (JsonValue.int 0) addrK (JsonValue.str ("Unknown".toList)) (by decide)).symm
    · exact (pyGetD_append_ne kvs chK (JsonValue.int 0) distK (JsonValue.int 0) (by decide)).symm
    · exact (pyGetD_append_ne kvs chK (JsonValue.int 0) rssiK (JsonValue.int 0) (by decide)).symm
    · exact (pyGetD_append_ne kvs chK (JsonValue.int 0) tsK (JsonValue.int 0) (by decide)).symm
    · exact (pyGetD_append_absent kvs chK (JsonValue.int 0) habs).symm
    · exact (pyGetD_append_ne kvs chK (JsonValue.int 0) prfK (JsonValue.int 0) (by decide)).symm
    · exact (pyGetD_append_ne kvs chK (JsonValue.int 0) fqK (JsonValue.int 0) (by decide)).symm
    · exact (pyGetD_append_ne kvs chK (JsonValue.int 0) ("message".toList) (JsonValue.str []) (by decide)).symm
  · intro habs
    refine formatDeviceInfo_congr now kvs _ ?_ ?_ ?_ ?_ ?_ ?_ ?_ ?_ ?_
    · exact (pyGet_append_ne kvs prfK (JsonValue.int 0) typeK (by decide)).symm
    · exact (pyGetD_append_ne kvs prfK (JsonValue.int 0) addrK (JsonValue.str ("Unknown".toList)) (by decide)).symm
    · exact (pyGetD_append_ne kvs prfK (JsonValue.int 0) distK (JsonValue.int 0) (by decide)).symm
    · exact (pyGetD_append_ne kvs prfK (JsonValue.int 0) rssiK (JsonValue.int 0) (by decide)).symm
    · exact (pyGetD_append_ne kvs prfK (JsonValue.int 0) tsK (JsonValue.int 0) (by decide)).symm
    · exact (pyGetD_append_ne kvs prfK (JsonValue.int 0) chK (JsonValue.int 0) (by decide)).symm
    · exact (pyGetD_append_absent kvs prfK (JsonValue.int 0) habs).symm
    · exact (pyGetD_append_ne kvs prfK (JsonValue.int 0) fqK (JsonValue.int 0) (by decide)).symm
    · exact (pyGetD_append_ne kvs prfK (JsonValue.int 0) ("message".toList) (JsonValue.str []) (by decide)).symm
  · intro habs
    refine formatDeviceInfo_congr now kvs _ ?_ ?_ ?_ ?_ ?_ ?_ ?_ ?_ ?_
    · exact (pyGet_append_ne kvs fqK (JsonValue.int 0) typeK (by decide)).symm
    · exact (pyGetD_append_ne kvs fqK (JsonValue.int 0) addrK (JsonValue.str ("Unknown".toList)) (by decide)).symm
    · exact (pyGetD_append_ne kvs fqK (JsonValue.int 0) distK (JsonValue.int 0) (by decide)).symm
    · exact (pyGetD_append_ne kvs fqK (JsonValue.int 0) rssiK (JsonValue.int 0) (by decide)).symm
    · exact (pyGetD_append_ne kvs fqK (JsonValue.int 0) tsK (JsonValue.int 0) (by decide)).symm
    · exact (pyGetD_append_ne kvs fqK (JsonValue.int 0) chK (JsonValue.int 0) (by decide)).symm
    · exact (pyGetD_append_ne kvs fqK (JsonValue.int 0) prfK (JsonValue.int 0) (by decide)).symm
    · exact (pyGetD_append_absent kvs fqK (JsonValue.int 0) habs).symm
    · exact (pyGetD_append_ne kvs fqK (JsonValue.int 0) ("message".toList) (JsonValue.str []) (by decide)).symm
  · intro h1 h2 h3 h4 h5 h6 h7
    have e1 : formatFixed2Q ((0 : ℤ) : ℚ) = "0.00".toList := by decide
    have e2 : formatFixed2Q (((0 : ℤ) : ℚ) / 100) = "0.00".toList := by
      have h0 : ((0 : ℤ) : ℚ) / 100 = ((0 : ℤ) : ℚ) := by norm_num
      rw [h0]
      decide
    simp only [formatDeviceInfo]
    rw [if_pos ht]
    unfold pyGetD
    rw [h1, h2, h3, h4, h5, h6, h7]
    simp only [Option.getD_none, pyFormatFixed2, pyDiv100, e1, e2]
  · have hd : isStrVal (pyGet kvs typeK) deviceFoundS = false := isStrVal_ne ht (by decide)
    have hd2 : ¬ isStrVal (pyGet kvs typeK) deviceFoundS = true := by
      rw [hd]
      exact Bool.false_ne_true
    simp only [formatDeviceInfo]
    rw [if_neg hd2, if_pos ht]
    unfold pyGetD
    rw [hm]
    simp only [Option.getD_none, pyStr, List.append_nil]
  · have hd : isStrVal (pyGet kvs typeK) deviceFoundS = false := isStrVal_ne ht (by decide)
    have hd2 : ¬ isStrVal (pyGet kvs typeK) deviceFoundS = true := by
      rw [hd]
      exact Bool.false_ne_true
    have hst : isStrVal (pyGet kvs typeK) statusS = false := isStrVal_ne ht (by decide)
    have hst2 : ¬ isStrVal (pyGet kvs typeK) statusS = true := by
      rw [hst]
      exact Bool.false_ne_true
    simp only [formatDeviceInfo]
    rw [if_neg hd2, if_neg hst2, if_pos ht]
    unfold pyGetD
    rw [hm]
    simp only [Option.getD_none, pyStr, List.append_nil]

theorem claim_C7_witness :
    formatDeviceInfo clock0 (.obj [((typeK : Str), JsonValue.str deviceFoundS)]) =
      .ok (deviceBlock (.str ("Unknown".toList)) (.int 0) (.int 0) (.int 0) (.int 0)
        ("0.00".toList) ("0.00".toList) ("0.00".toList)) :=
  ((claim_C7_missing_field_defaults clock0
      [((typeK : Str), JsonValue.str deviceFoundS)]).1
    (by rfl)).2.2.2.2.2.2.2 rfl rfl rfl rfl rfl rfl rfl

theorem qOf_fixed2 {v : JsonValue} {q : ℚ} (h : qOfNum v = some q) :
    pyFormatFixed2 v = .ok (formatFixed2Q q) ∧ pyDiv100 v = .ok (.float (q / 100)) := by
  cases v with
  | int n =>
    simp only [qOfNum, Option.some.injEq] at h
    rw [← h]
    exact ⟨rfl, rfl⟩
  | float qq =>
    simp only [qOfNum, Option.some.injEq] at h
    rw [← h]
    exact ⟨rfl, rfl⟩
  | bool b =>
    simp only [qOfNum, Option.some.injEq] at h
    rw [← h]
    exact ⟨rfl, rfl⟩
  | null => simp [qOfNum] at h
  | nan => simp [qOfNum] at h
  | inf b => simp [qOfNum] at h
  | str s => simp [qOfNum] at h
  | arr xs => simp [qOfNum] at h
  | obj kvs => simp [qOfNum] at h

/-- C8: on the Distance line of every rendered device_found record,
the value printed in meters is the distance_cm value divided by 100,
with both values rendered by the same two-decimal fixed-point
formatting. -/
theorem claim_C8_distance_meters_ratio (now : Str) (kvs : List (Str × JsonValue))
    (ls : List Str) (q : ℚ)
    (hq : qOfNum (pyGetD kvs distK (.int 0)) = some q)
    (ht : isStrVal (pyGet kvs typeK) deviceFoundS = true)
    (hok : formatDeviceInfo now (.obj kvs) = .ok ls) :
    ls.get? 4 = some ("Distance:       ".toList ++ formatFixed2Q q ++ (" cm (".toList) ++
      formatFixed2Q (q / 100) ++ (" m)".toList)) := by
  obtain ⟨hf, hd⟩ := qOf_fixed2 hq
  simp only [formatDeviceInfo] at hok
  rw [if_pos ht] at hok
  rw [hf, hd] at hok
  simp only [show pyFormatFixed2 (JsonValue.float (q / 100)) =
    .ok (formatFixed2Q (q / 100)) from rfl] at hok
  cases hr : pyFormatFixed2 (pyGetD kvs rssiK (.int 0)) with
  | error e =>
    rw [hr] at hok
    simp at hok
  | ok rs =>
    rw [hr] at hok
    simp only [Except.ok.injEq] at hok
    rw [← hok]
    rfl

theorem claim_C8_witness :
    (deviceBlock (.str ("Unknown".toList)) (.int 0) (.int 0) (.int 0) (.int 0)
        (formatFixed2Q ((5 : ℤ) : ℚ)) (formatFixed2Q (((5 : ℤ) : ℚ) / 100))
        (formatFixed2Q ((0 : ℤ) : ℚ))).get? 4 =
      some ("Distance:       ".toList ++ formatFixed2Q ((5 : ℤ) : ℚ) ++ (" cm (".toList) ++
        formatFixed2Q (((5 : ℤ) : ℚ) / 100) ++ (" m)".toList)) :=
  claim_C8_distance_meters_ratio clock0
    [((typeK : Str), JsonValue.str deviceFoundS), ((distK : Str), JsonValue.int 5)]
    (deviceBlock (.str ("Unknown".toList)) (.int 0) (.int 0) (.int 0) (.int 0)
      (formatFixed2Q ((5 : ℤ) : ℚ)) (formatFixed2Q (((5 : ℤ) : ℚ) / 100))
      (formatFixed2Q ((0 : ℤ) : ℚ)))
    ((5 : ℤ) : ℚ) rfl rfl rfl
